import Mathlib

/-!
# Verification of the review-summary pipeline (src/main.py, src/utils.py)

Shallow embedding of the review-summarisation pipeline: a Python program that
fetches per-entity rating/review rows from a MariaDB store, preprocesses the
review texts, builds a token-bounded prompt context, calls a remote completion
endpoint, and writes the produced summary back to the store.

External collaborators (the MariaDB driver, the tokenizer, the completion
endpoint) are modelled as explicit parameters/oracles; the control flow and the
pure data transformations are translated statement by statement from the
source.  Python's `try/except/finally` semantics, including the fact that an
exception raised inside a `finally` block replaces the pending result, and the
`UnboundLocalError` raised when a local variable is read before any assignment
to it has executed, are made explicit in the embedding.
-/

namespace PyReview

/-! ## Python-level result of a call: normal return or raised exception -/

/-- Outcome of calling a Python function: a normal return value, or an
exception identified by its class name. -/
inductive PyResult (α : Type) where
  | ret (a : α)
  | exc (name : String)
deriving DecidableEq, Repr

/-- Whether a `PyResult` is a normal return. -/
def PyResult.isRet {α : Type} : PyResult α → Bool
  | .ret _ => true
  | .exc _ => false

/-! ## Review Preprocessor — `preprocess_reviews` (src/utils.py:141-160)

Python's `str.strip()` removes leading and trailing whitespace; we model it on
the underlying character list with `List.dropWhile` on the left and
`List.rdropWhile` on the right. -/

/-- Character-level whitespace test modelling Python's notion of whitespace
for `str.strip()`. -/
def ws (c : Char) : Bool := c.isWhitespace

/-- Model of Python `str.strip()` on the character list. -/
def stripChars (l : List Char) : List Char :=
  (l.dropWhile ws).rdropWhile ws

/-- Model of Python `str.strip()`: drop leading and trailing whitespace. -/
def pyStrip (s : String) : String :=
  String.mk (stripChars s.data)

/-- Python truthiness of a string: nonempty strings are truthy. -/
def strTruthy (s : String) : Bool := s ≠ ""

/-- `preprocess_reviews(all_reviews)` (src/utils.py:141-160).  The input list
may contain `None` entries (SQL `NULL` review texts), hence `Option String`.

Line by line:
* `all_reviews = list(filter(None, all_reviews))` drops falsy entries, i.e.
  `None` and the empty string — modelled by `filterMap id` (drop `none`)
  followed by `filter strTruthy` (drop `""`);
* `[review for review in all_reviews if review]` is a second, redundant
  truthiness filter;
* `[review.strip() for review in all_reviews]` strips each entry;
* `list(set(all_reviews))` removes duplicates; a Python `set`'s iteration
  order is unspecified, so we use first-occurrence order (`List.dedup`) and
  state every theorem about the result order-independently. -/
def preprocess_reviews (all_reviews : List (Option String)) : List String :=
  let step1 := (all_reviews.filterMap id).filter strTruthy
  let step2 := step1.filter strTruthy
  let step3 := step2.map pyStrip
  step3.dedup

example : preprocess_reviews [some " "] = [""] := by decide

example :
    preprocess_reviews
      [some "Great coaches!", some "Great coaches!", some "", none, some " Friendly staff "] =
      ["Great coaches!", "Friendly staff"] := by decide

/-! ### Facts about the strip model -/

lemma stripChars_idem (l : List Char) : stripChars (stripChars l) = stripChars l := by
  unfold stripChars
  have hpre : (l.dropWhile ws).rdropWhile ws <+: l.dropWhile ws :=
    List.rdropWhile_prefix ws _
  have hdw : List.dropWhile ws ((l.dropWhile ws).rdropWhile ws) =
      (l.dropWhile ws).rdropWhile ws := by
    rw [List.dropWhile_eq_self_iff]
    intro hl
    have hlen : 0 < (l.dropWhile ws).length := lt_of_lt_of_le hl hpre.length_le
    have h0 : ((l.dropWhile ws).rdropWhile ws).get ⟨0, hl⟩ =
        (l.dropWhile ws).get ⟨0, hlen⟩ := by
      simpa using hpre.getElem hl
    rw [h0]
    exact List.dropWhile_get_zero_not ws l hlen
  rw [hdw, List.rdropWhile_idempotent]

lemma pyStrip_idem (s : String) : pyStrip (pyStrip s) = pyStrip s := by
  simp [pyStrip, stripChars_idem]

/-- Membership in the preprocessed output, characterised by provenance from
the input list. -/
lemma mem_preprocess_iff (xs : List (Option String)) (s : String) :
    s ∈ preprocess_reviews xs ↔ ∃ t : String, some t ∈ xs ∧ t ≠ "" ∧ s = pyStrip t := by
  simp only [preprocess_reviews, List.mem_dedup, List.mem_map, List.mem_filter,
    List.mem_filterMap, id_eq, strTruthy, decide_eq_true_eq]
  constructor
  · rintro ⟨t, ⟨⟨⟨o, ho, rfl⟩, hne⟩, _⟩, rfl⟩
    exact ⟨t, ho, hne, rfl⟩
  · rintro ⟨t, ht, hne, rfl⟩
    exact ⟨t, ⟨⟨⟨some t, ht, rfl⟩, hne⟩, hne⟩, rfl⟩

/-- Every entry of the preprocessed output is a fixed point of the strip
operation. -/
lemma pyStrip_mem_preprocess {xs : List (Option String)} {s : String}
    (h : s ∈ preprocess_reviews xs) : pyStrip s = s := by
  obtain ⟨t, -, -, rfl⟩ := (mem_preprocess_iff xs s).1 h
  exact pyStrip_idem t

/-- C2 counterexample: on the input `[" "]` (one whitespace-only review),
`preprocess_reviews` returns `[""]` — the output does contain an entry that is
empty after trimming, because the truthiness filters run before `strip()`. -/
theorem C2_counterexample :
    preprocess_reviews [some " "] = [""] ∧
      ¬ (∀ s ∈ preprocess_reviews [some " "], pyStrip s ≠ "") := by
  constructor
  · decide
  · intro h
    exact h "" (by decide) (by decide)

/-- C2 (amended): for every input sequence of optional strings, the output of
`preprocess_reviews` has no duplicate entries, no absent entries, and every
entry is trimmed of leading and trailing whitespace; every entry arises as the
trimmed form of an input entry that was present and nonempty before trimming.
(A whitespace-only input entry survives as the empty string, so "no entries
that are empty after trimming" does not hold in general.) -/
theorem C2_preprocess_output_clean (xs : List (Option String)) :
    (preprocess_reviews xs).Nodup ∧
      ∀ s ∈ preprocess_reviews xs,
        pyStrip s = s ∧ ∃ t : String, some t ∈ xs ∧ t ≠ "" ∧ s = pyStrip t := by
  refine ⟨List.nodup_dedup _, fun s hs => ⟨pyStrip_mem_preprocess hs, ?_⟩⟩
  exact (mem_preprocess_iff xs s).1 hs

/-- Witness for C2 at the concrete input `[" Friendly staff "]` and its output
entry `"Friendly staff"`. -/
theorem C2_preprocess_witness :
    pyStrip "Friendly staff" = "Friendly staff" ∧
      ∃ t : String, some t ∈ [some " Friendly staff "] ∧ t ≠ "" ∧
        "Friendly staff" = pyStrip t :=
  (C2_preprocess_output_clean [some " Friendly staff "]).2 "Friendly staff" (by decide)

/-- C3 counterexample: `preprocess_reviews` is not idempotent up to order.  On
`[" "]` the first pass returns `[""]`; the second pass drops that empty string
(the truthiness filter removes it), so the two results differ as sets. -/
theorem C3_counterexample :
    "" ∈ preprocess_reviews [some " "] ∧
      "" ∉ preprocess_reviews ((preprocess_reviews [some " "]).map some) := by
  decide

/-- C3 (amended): applying `preprocess_reviews` a second time preserves the
result up to order except that an empty-string entry (produced from a
whitespace-only input) is dropped: `s` is in the second pass's output iff `s`
is in the first pass's output and `s` is nonempty.  In particular the function
is idempotent up to order on every input whose first-pass output contains no
empty string. -/
theorem C3_preprocess_twice (xs : List (Option String)) (s : String) :
    s ∈ preprocess_reviews ((preprocess_reviews xs).map some) ↔
      s ∈ preprocess_reviews xs ∧ s ≠ "" := by
  rw [mem_preprocess_iff]
  constructor
  · rintro ⟨t, ht, hne, rfl⟩
    rw [List.mem_map] at ht
    obtain ⟨u, hu, hu'⟩ := ht
    obtain rfl : u = t := Option.some_inj.mp hu'
    rw [pyStrip_mem_preprocess hu]
    exact ⟨hu, hne⟩
  · rintro ⟨hs, hne⟩
    exact ⟨s, List.mem_map_of_mem some hs, hne, (pyStrip_mem_preprocess hs).symm⟩

/-- Witness for C3 at a concrete input and entry. -/
theorem C3_preprocess_twice_witness :
    "Great coaches!" ∈
        preprocess_reviews ((preprocess_reviews [some "Great coaches!"]).map some) ↔
      "Great coaches!" ∈ preprocess_reviews [some "Great coaches!"] ∧
        "Great coaches!" ≠ "" :=
  C3_preprocess_twice [some "Great coaches!"] "Great coaches!"

/-! ## Summary Generator — `generate_summary_openai` (src/utils.py:169-236)

`num_tokens_from_string` (src/utils.py:163-166) wraps the external tiktoken
encoding; §4.3 of the spec requires of it only that it be a fixed
deterministic function, so the embedding takes the tokenizer as an explicit
parameter `num_tokens_from_string : String → ℕ`. -/

/-- `max_tokens` (src/utils.py:205). -/
def max_tokens : ℤ := 1200

/-- The verbatim `system_prompt` string (src/utils.py:204). -/
def system_prompt : String := "Generate a detailed long summary of the Google reviews for a sports academy, ensuring the summary contains at least 350 words and does not exceed 500 words. Do not generate short summaries. Format the summary with bullet points. Start immediately with the summary, maintaining a professional tone and focusing on factual content from the reviews. This is for marketing purposes,so write summary as if you are promoting the sports academy. Include SEO-optimized keywords relevant to sports academies to boost search rankings. Make sure to include proper punctuation, especially full stops at the end of each sentence. Never generate less than 350 words."

/-- `max_token_count_for_context = 16000 - max_tokens - system_prompt_token_count`
(src/utils.py:206-208). -/
def max_token_count_for_context (num_tokens_from_string : String → ℕ) : ℤ :=
  16000 - max_tokens - (num_tokens_from_string system_prompt : ℤ)

/-- The context-accumulation loop of `generate_summary_openai`
(src/utils.py:210-216), with the accumulated `context` string as an explicit
accumulator:

    context = ""
    for _review in all_reviews:
        if num_tokens_from_string(_review) > max_token_count_for_context:
            break
        context += _review
        context += "\n"

Each review is compared against the full `budget`, which the loop never
decreases. -/
def accumulate_context (num_tokens_from_string : String → ℕ) (budget : ℤ)
    (context : String) : List String → String
  | [] => context
  | r :: rest =>
      if (num_tokens_from_string r : ℤ) > budget then context
      else accumulate_context num_tokens_from_string budget (context ++ r ++ "\n") rest

/-- The `context` value produced inside `generate_summary_openai` for a given
tokenizer and cleaned review list (src/utils.py:208-216). -/
def context_for (num_tokens_from_string : String → ℕ) (all_reviews : List String) : String :=
  accumulate_context num_tokens_from_string
    (max_token_count_for_context num_tokens_from_string) "" all_reviews

/-- `generate_summary_openai` (src/utils.py:169-236): build the context and
the user prompt, invoke the remote completion endpoint — modelled as an
oracle mapping the user prompt to either a completion text or a raised
provider/transport exception — and return the completion text verbatim.  A
provider exception propagates to the caller. -/
def generate_summary_openai (num_tokens_from_string : String → ℕ)
    (llm : String → PyResult String)
    (all_reviews : List String) (total_rating : ℕ) (average_rating : ℚ) :
    PyResult String :=
  let context := context_for num_tokens_from_string all_reviews
  let user_prompt := "Reviews:\nTotal Rating:" ++ toString total_rating ++
    "\nAverage rating:" ++ toString average_rating ++ "\n" ++ context ++ "\n\nSummary:"
  llm user_prompt

/-- Concatenation of a list of strings. -/
def concatAll : List String → String
  | [] => ""
  | s :: rest => s ++ concatAll rest

/-- Closed form of the accumulation loop: it appends exactly the longest
prefix of the review list on which every review's token count stays within
the (fixed) budget, each review followed by a newline. -/
lemma accumulate_context_eq (num_tokens_from_string : String → ℕ) (budget : ℤ)
    (l : List String) :
    ∀ context : String,
      accumulate_context num_tokens_from_string budget context l =
        context ++ concatAll
          ((l.takeWhile fun r => !decide ((num_tokens_from_string r : ℤ) > budget)).map
            (fun r => r ++ "\n")) := by
  induction l with
  | nil => intro context; simp [accumulate_context, concatAll]
  | cons r rest ih =>
    intro context
    by_cases h : (num_tokens_from_string r : ℤ) > budget
    · simp [accumulate_context, List.takeWhile_cons, h, concatAll]
    · simp [accumulate_context, if_neg h, ih, List.takeWhile_cons, h, concatAll,
        String.append_assoc]

/-- C10: the accumulated context string is always the concatenation of a
prefix of the input review sequence, each review followed by a newline — no
review is skipped with a later one included, and each included review appears
verbatim, exactly once, in input order. -/
theorem C10_context_concat_of_prefix (num_tokens_from_string : String → ℕ)
    (all_reviews : List String) :
    ∃ p, p <+: all_reviews ∧
      context_for num_tokens_from_string all_reviews =
        concatAll (p.map (fun r => r ++ "\n")) := by
  refine ⟨all_reviews.takeWhile
      (fun r => !decide ((num_tokens_from_string r : ℤ) >
        max_token_count_for_context num_tokens_from_string)),
    List.takeWhile_prefix _, ?_⟩
  rw [context_for, accumulate_context_eq]
  simp

/-- A concrete deterministic tokenizer — one token per character — used to
exhibit the token-budget overflow. -/
def char_count_tokenizer (s : String) : ℕ := s.length

/-- A review of 8000 characters (8000 tokens under `char_count_tokenizer`). -/
def big_review : String := String.mk (List.replicate 8000 'a')

set_option maxRecDepth 4000 in
/-- C1: the accumulation loop never decreases `max_token_count_for_context`,
so the total token count of the accumulated context CAN exceed the budget.
Under the one-token-per-character tokenizer the budget is
16000 - 1200 - 652 = 14148; each of the two 8000-token reviews individually
passes the `> budget` test, both are accumulated, and the resulting context
weighs 16002 tokens > 14148.  This contradicts the intent evidenced by the
name and the computation of `max_token_count_for_context`
(src/utils.py:208-216): the claim describes the intended remaining-budget
policy, which the code does not implement. -/
theorem C1_token_budget_overflow :
    (char_count_tokenizer big_review : ℤ) ≤
        max_token_count_for_context char_count_tokenizer ∧
      (char_count_tokenizer (context_for char_count_tokenizer
          [big_review, big_review]) : ℤ) >
        max_token_count_for_context char_count_tokenizer := by
  have hsp : system_prompt.length = 652 := by decide
  have hB : max_token_count_for_context char_count_tokenizer = 14148 := by
    rw [max_token_count_for_context, char_count_tokenizer, hsp, max_tokens]
    norm_num
  have hbig : big_review.length = 8000 := by
    show (List.replicate 8000 'a').length = 8000
    exact List.length_replicate _ _
  have hcond : ¬ ((char_count_tokenizer big_review : ℤ) > 14148) := by
    rw [char_count_tokenizer, hbig]; norm_num
  have hctx : context_for char_count_tokenizer [big_review, big_review] =
      ((("" ++ big_review) ++ "\n") ++ big_review) ++ "\n" := by
    rw [context_for, hB]
    rw [accumulate_context, if_neg hcond, accumulate_context, if_neg hcond,
      accumulate_context]
  constructor
  · rw [hB, char_count_tokenizer, hbig]; norm_num
  · rw [hB, hctx]
    have : (((("" ++ big_review) ++ "\n") ++ big_review) ++ "\n").length = 16002 := by
      simp [String.length_append, hbig]; decide
    rw [char_count_tokenizer, this]
    norm_num

/-! ## Review Repository — database access (src/utils.py:14-74, 77-138, 239-282)

The MariaDB driver is an external collaborator; each statement that talks to
it is modelled by an oracle recording whether that statement raises
`mariadb.Error`.  The embedding makes two pieces of Python semantics explicit:

* a function's local variables (`conn`, `curr`) start *unassigned*; an
  assignment statement binds its target only if its right-hand side completes
  normally, and reading an unassigned local raises `UnboundLocalError`;
* in `try/except/finally`, the `finally` block always runs, and an exception
  raised inside it replaces any pending return value or handled exception. -/

/-- Outcome of one MariaDB driver call: success, or a raised `mariadb.Error`. -/
inductive StepResult where
  | ok
  | err
deriving DecidableEq, Repr

/-- State of a Python local variable at the start of the `finally` block. -/
inductive LocalVar where
  | unbound
  | noneVal
  | obj
deriving DecidableEq, Repr

/-- The `finally` block shared by all three repository functions:

    if curr: curr.close()
    if conn: conn.close()

Reading a never-assigned local raises `UnboundLocalError`; `None` is falsy so
its `close()` is skipped; cursor/connection objects are truthy and their
`close()` is assumed not to raise. -/
def finallyClose (conn curr : LocalVar) : PyResult Unit :=
  match curr with
  | .unbound => .exc "UnboundLocalError"
  | _ =>
    match conn with
    | .unbound => .exc "UnboundLocalError"
    | _ => .ret ()

/-- Python `try/except mariadb.Error/finally`: run the body; a raised
`mariadb.Error` is replaced by the handler's outcome (all three handlers in
the source print and return normally); then the `finally` block runs and its
exception, if any, replaces the pending outcome. -/
def tryExceptFinally {α : Type} (body : PyResult α) (handler : PyResult α)
    (cleanup : PyResult Unit) : PyResult α :=
  let pending :=
    match body with
    | .exc e => if e = "mariadb.Error" then handler else .exc e
    | .ret a => .ret a
  match cleanup with
  | .exc e => .exc e
  | .ret _ => pending

/-- Oracle for one repository read: whether `mariadb.connect`, `conn.cursor()`
and `curr.execute(...)` raise, and the rows `curr.fetchall()` yields when the
query succeeded. -/
structure DbOracle (ρ : Type) where
  connect : StepResult
  cursor : StepResult
  execute : StepResult
  rows : ρ
deriving DecidableEq, Repr

/-- Body of the `try` block of `fetch_unique_values_from_db`
(src/utils.py:43-62), returning the pending outcome and the state of the
locals `conn`, `curr`.  Both locals are pre-initialised to `None`
(src/utils.py:41-42).  The oracle's `rows` models the list
`[row[0] for row in curr.fetchall()]` — the first-column values of the
`SELECT DISTINCT` result computed by the external store. -/
def fetch_unique_body {ι : Type} (o : DbOracle (List ι)) :
    PyResult (List ι) × LocalVar × LocalVar :=
  match o.connect with
  | .err => (.exc "mariadb.Error", .noneVal, .noneVal)
  | .ok =>
    match o.cursor with
    | .err => (.exc "mariadb.Error", .obj, .noneVal)
    | .ok =>
      match o.execute with
      | .err => (.exc "mariadb.Error", .obj, .obj)
      | .ok => (.ret o.rows, .obj, .obj)

/-- `fetch_unique_values_from_db` (src/utils.py:14-74): the handler returns
`[]` (src/utils.py:64-67), then the `finally` block closes whatever is open. -/
def fetch_unique_values_from_db {ι : Type} (o : DbOracle (List ι)) :
    PyResult (List ι) :=
  let (r, conn, curr) := fetch_unique_body o
  tryExceptFinally r (.ret []) (finallyClose conn curr)

/-- One row of the `SELECT Rating, Review` result: rating and optional review
text (§3 of the spec: ReviewRecord). -/
structure ReviewRecord where
  Rating : ℚ
  Review : Option String
deriving DecidableEq, Repr

/-- Body of the `try` block of `fetch_rating_and_review`
(src/utils.py:106-128).  Unlike `fetch_unique_values_from_db`, `conn` and
`curr` are NOT pre-initialised, so a failure before their assignments leaves
them unassigned.  On success, `if result:` returns the DataFrame for a
nonempty row list and `None` otherwise (src/utils.py:123-128); the DataFrame
is modelled as the row list itself. -/
def fetch_rating_body (o : DbOracle (List ReviewRecord)) :
    PyResult (Option (List ReviewRecord)) × LocalVar × LocalVar :=
  match o.connect with
  | .err => (.exc "mariadb.Error", .unbound, .unbound)
  | .ok =>
    match o.cursor with
    | .err => (.exc "mariadb.Error", .obj, .unbound)
    | .ok =>
      match o.execute with
      | .err => (.exc "mariadb.Error", .obj, .obj)
      | .ok => (.ret (if o.rows.isEmpty then none else some o.rows), .obj, .obj)

/-- `fetch_rating_and_review` (src/utils.py:77-138): the handler returns
`None` (src/utils.py:130-132), then the `finally` block runs
(src/utils.py:134-138). -/
def fetch_rating_and_review (o : DbOracle (List ReviewRecord)) :
    PyResult (Option (List ReviewRecord)) :=
  let (r, conn, curr) := fetch_rating_body o
  tryExceptFinally r (.ret none) (finallyClose conn curr)

/-- Oracle for `update_review_summary`: whether `mariadb.connect`,
`conn.cursor()`, `curr.execute(...)` and `conn.commit()` raise. -/
structure StoreOracle where
  connect : StepResult
  cursor : StepResult
  execute : StepResult
  commit : StepResult
deriving DecidableEq, Repr

/-- Outcome of `update_review_summary`: the Python-level result and whether
`conn.commit()` completed before the function returned. -/
structure UpdateOutcome where
  result : PyResult Unit
  committed : Bool
deriving DecidableEq, Repr

/-- Body of the `try` block of `update_review_summary`
(src/utils.py:251-273); `conn` and `curr` are NOT pre-initialised. -/
def update_body (o : StoreOracle) : PyResult Unit × Bool × LocalVar × LocalVar :=
  match o.connect with
  | .err => (.exc "mariadb.Error", false, .unbound, .unbound)
  | .ok =>
    match o.cursor with
    | .err => (.exc "mariadb.Error", false, .obj, .unbound)
    | .ok =>
      match o.execute with
      | .err => (.exc "mariadb.Error", false, .obj, .obj)
      | .ok =>
        match o.commit with
        | .err => (.exc "mariadb.Error", false, .obj, .obj)
        | .ok => (.ret (), true, .obj, .obj)

/-- `update_review_summary` (src/utils.py:239-282): the handler prints and
falls through (returning `None`, src/utils.py:275-276), then the `finally`
block runs (src/utils.py:278-282). -/
def update_review_summary (o : StoreOracle) : UpdateOutcome :=
  let (r, committed, conn, curr) := update_body o
  ⟨tryExceptFinally r (.ret ()) (finallyClose conn curr), committed⟩

/-- C4: `update_review_summary` is NOT raise-free on every store failure.
When `mariadb.connect` itself raises, the handler runs, but the `finally`
block reads the never-assigned local `curr` and raises `UnboundLocalError` to
the caller (unlike `fetch_unique_values_from_db`, the function does not
pre-initialise `conn = None; curr = None`).  Failures after the cursor
exists (a failing `execute` or `commit`) are logged and the function returns
normally, and on full success the transaction is committed before returning —
exactly as the claim says for those cases. -/
theorem C4_update_connect_failure_raises :
    update_review_summary ⟨.err, .ok, .ok, .ok⟩ =
        ⟨.exc "UnboundLocalError", false⟩ ∧
      update_review_summary ⟨.ok, .ok, .err, .ok⟩ = ⟨.ret (), false⟩ ∧
      update_review_summary ⟨.ok, .ok, .ok, .err⟩ = ⟨.ret (), false⟩ ∧
      update_review_summary ⟨.ok, .ok, .ok, .ok⟩ = ⟨.ret (), true⟩ := by
  refine ⟨rfl, rfl, rfl, rfl⟩

/-- C5: `fetch_rating_and_review` is NOT raise-free on every failure.  When
`mariadb.connect` raises, the `except` block's `return None` is pre-empted by
the `finally` block, which reads the never-assigned local `curr` and raises
`UnboundLocalError` to the caller.  The other cases behave as the claim says:
a failing query after the cursor exists returns `None`, zero matching rows
return `None`, and a nonempty result returns exactly the matching rows. -/
theorem C5_fetch_rating_connect_failure_raises :
    fetch_rating_and_review ⟨.err, .ok, .ok, [⟨5, some "Great coaching"⟩]⟩ =
        .exc "UnboundLocalError" ∧
      fetch_rating_and_review ⟨.ok, .ok, .err, [⟨5, some "Great coaching"⟩]⟩ =
        .ret none ∧
      fetch_rating_and_review ⟨.ok, .ok, .ok, []⟩ = .ret none ∧
      fetch_rating_and_review ⟨.ok, .ok, .ok, [⟨5, some "Great coaching"⟩]⟩ =
        .ret (some [⟨5, some "Great coaching"⟩]) := by
  refine ⟨rfl, rfl, rfl, rfl⟩

/-- C8: `fetch_unique_values_from_db` never raises to its caller: it
pre-initialises `conn = None; curr = None`, so the `finally` block is safe in
every case.  On any `mariadb.Error` — unreachable store (`connect`), cursor
failure, or malformed query (`execute`) — it returns the empty list; on
success it returns exactly the distinct values the query produced. -/
theorem C8_fetch_unique_degrades_to_empty {ι : Type} (o : DbOracle (List ι)) :
    (∀ e, fetch_unique_values_from_db o ≠ .exc e) ∧
      (o.connect = .err ∨ o.cursor = .err ∨ o.execute = .err →
        fetch_unique_values_from_db o = .ret []) ∧
      (o.connect = .ok → o.cursor = .ok → o.execute = .ok →
        fetch_unique_values_from_db o = .ret o.rows) := by
  obtain ⟨c₁, c₂, c₃, rows⟩ := o
  cases c₁ <;> cases c₂ <;> cases c₃ <;>
    simp [fetch_unique_values_from_db, fetch_unique_body, tryExceptFinally,
      finallyClose]

/-- Witness for C8 at concrete oracles: an unreachable store yields `[]`, a
fully successful query yields its distinct values. -/
theorem C8_fetch_unique_witness :
    fetch_unique_values_from_db ⟨.err, .ok, .ok, ([3, 5] : List ℕ)⟩ = .ret [] ∧
      fetch_unique_values_from_db ⟨.ok, .ok, .ok, ([3, 5] : List ℕ)⟩ =
        .ret [3, 5] := by
  refine ⟨(C8_fetch_unique_degrades_to_empty ⟨.err, .ok, .ok, [3, 5]⟩).2.1
      (Or.inl rfl),
    (C8_fetch_unique_degrades_to_empty ⟨.ok, .ok, .ok, [3, 5]⟩).2.2 rfl rfl rfl⟩

/-! ## Rating aggregates (src/main.py:33-36)

The source computes on IEEE floats via pandas; the embedding uses exact
rationals — the idealised decimal semantics of the same operations.  Python's
`round(x, 2)` rounds half to even. -/

/-- Round half to even (banker's rounding), as Python's builtin `round` does
for the integer part of a scaled value. -/
def round_half_even (q : ℚ) : ℤ :=
  if q - ⌊q⌋ < 1/2 then ⌊q⌋
  else if q - ⌊q⌋ > 1/2 then ⌊q⌋ + 1
  else if ⌊q⌋ % 2 = 0 then ⌊q⌋ else ⌊q⌋ + 1

/-- Python `round(x, 2)`: scale by 100, round half to even, scale back. -/
def pyRound2 (q : ℚ) : ℚ := (round_half_even (q * 100) : ℚ) / 100

/-- `rating_review_df["Rating"].mean()`: sum of the column divided by its
length. -/
def pandas_mean (ratings : List ℚ) : ℚ := ratings.sum / ratings.length

/-- `average_rating = round(rating_review_df["Rating"].mean(), 2)`
(src/main.py:36). -/
def average_rating (ratings : List ℚ) : ℚ := pyRound2 (pandas_mean ratings)

/-- The spec's wording for C6, stated independently of the code: the
arithmetic mean of all rating values. -/
def arithmetic_mean (ratings : List ℚ) : ℚ :=
  ratings.foldr (· + ·) 0 / ratings.length

/-- C6: for every non-empty rating sequence, `average_rating` equals the
arithmetic mean rounded to 2 decimal places; ratings `[4, 5, 4]` yield 4.33
and ratings `[5, 4, 5, 3]` yield 4.25. -/
theorem C6_average_rating_rounded :
    (∀ rs : List ℚ, rs ≠ [] → average_rating rs = pyRound2 (arithmetic_mean rs)) ∧
      average_rating [4, 5, 4] = 433/100 ∧
      average_rating [5, 4, 5, 3] = 425/100 := by
  refine ⟨fun rs _ => ?_, ?_, ?_⟩
  · rw [average_rating, pandas_mean, arithmetic_mean, List.sum_eq_foldr]
  · have hm : pandas_mean [4, 5, 4] = 13/3 := by norm_num [pandas_mean]
    have hf : ⌊(13/3 * 100 : ℚ)⌋ = 433 := by rw [Int.floor_eq_iff]; norm_num
    rw [average_rating, hm, pyRound2, round_half_even, hf]
    norm_num
  · have hm : pandas_mean [5, 4, 5, 3] = 17/4 := by norm_num [pandas_mean]
    have hf : ⌊(17/4 * 100 : ℚ)⌋ = 425 := by rw [Int.floor_eq_iff]; norm_num
    rw [average_rating, hm, pyRound2, round_half_even, hf]
    norm_num

/-- Witness for C6 at the concrete rating list `[4, 5, 4]`. -/
theorem C6_average_rating_witness :
    average_rating [4, 5, 4] = pyRound2 (arithmetic_mean [4, 5, 4]) :=
  C6_average_rating_rounded.1 [4, 5, 4] (List.cons_ne_nil _ _)

/-! ## Per-id aggregates and their independence from text preprocessing
(src/main.py:33-42) -/

/-- The `Rating` column of the fetched DataFrame. -/
def ratings_column (df : List ReviewRecord) : List ℚ :=
  df.map ReviewRecord.Rating

/-- The `Review` column of the fetched DataFrame
(`rating_review_df["Review"].to_list()`, src/main.py:39). -/
def reviews_column (df : List ReviewRecord) : List (Option String) :=
  df.map ReviewRecord.Review

/-- `total_rating = len(rating_review_df["Rating"])` (src/main.py:33). -/
def total_rating (df : List ReviewRecord) : ℕ :=
  (ratings_column df).length

/-- C7: `total_rating` counts the rating entries of the fetched record set —
it equals the number of rows, is computed before any preprocessing of the
review texts, and neither it nor the average rating changes when the review
texts are altered in any way (`g`); preprocessing can only shrink the text
list, never the rating aggregates. -/
theorem C7_aggregates_independent_of_texts (df : List ReviewRecord)
    (g : Option String → Option String) :
    total_rating df = df.length ∧
      total_rating (df.map fun r => ⟨r.Rating, g r.Review⟩) = total_rating df ∧
      average_rating (ratings_column (df.map fun r => ⟨r.Rating, g r.Review⟩)) =
        average_rating (ratings_column df) ∧
      (preprocess_reviews (reviews_column df)).length ≤ total_rating df := by
  refine ⟨by simp [total_rating, ratings_column],
    by simp [total_rating, ratings_column], ?_, ?_⟩
  · have : ratings_column (df.map fun r => ⟨r.Rating, g r.Review⟩) =
        ratings_column df := by
      simp [ratings_column, List.map_map]
    rw [this]
  · have hlen : total_rating df = (reviews_column df).length := by
      simp [total_rating, ratings_column, reviews_column]
    rw [hlen]
    calc (preprocess_reviews (reviews_column df)).length
        ≤ ((((reviews_column df).filterMap id).filter strTruthy).filter
            strTruthy |>.map pyStrip).length :=
          (List.dedup_sublist _).length_le
      _ = ((((reviews_column df).filterMap id).filter strTruthy).filter
            strTruthy).length := List.length_map _ _
      _ ≤ (((reviews_column df).filterMap id).filter strTruthy).length :=
          List.length_filter_le _ _
      _ ≤ ((reviews_column df).filterMap id).length :=
          List.length_filter_le _ _
      _ ≤ (reviews_column df).length := List.length_filterMap_le _ _

/-- Witness for C7 at a concrete record set and text transformation. -/
theorem C7_aggregates_witness :
    total_rating [⟨5, some "Great coaches!"⟩, ⟨4, none⟩] = 2 ∧
      (preprocess_reviews
        (reviews_column [⟨5, some "Great coaches!"⟩, ⟨4, none⟩])).length ≤
        total_rating [⟨5, some "Great coaches!"⟩, ⟨4, none⟩] := by
  have h := C7_aggregates_independent_of_texts
    [⟨5, some "Great coaches!"⟩, ⟨4, none⟩] (fun _ => none)
  exact ⟨h.1, h.2.2.2⟩

/-! ## Pipeline Driver — `main` (src/main.py:17-58) -/

/-- Per-id external environment: the oracle for `fetch_rating_and_review`,
the completion endpoint (user prompt ↦ outcome), and the oracle for
`update_review_summary`. -/
structure IdEnv where
  fetch : DbOracle (List ReviewRecord)
  llm : String → PyResult String
  store : StoreOracle

/-- The body of one loop iteration of `main` (src/main.py:27-56), i.e. the
code inside the `try`:

* fetch the DataFrame; when zero rows matched, `fetch_rating_and_review`
  returned `None` and `rating_review_df["Rating"]` (src/main.py:33) raises
  `TypeError` (`None` is not subscriptable);
* compute `total_rating` and `average_rating` (src/main.py:33-36);
* preprocess the `Review` column (src/main.py:39-42);
* generate the summary (src/main.py:45-47) — a provider failure propagates;
* write the summary back (src/main.py:52) — an exception from
  `update_review_summary` (see C4) propagates. -/
def pipeline_step (num_tokens_from_string : String → ℕ) (env : IdEnv) :
    PyResult Unit :=
  match fetch_rating_and_review env.fetch with
  | .exc e => .exc e
  | .ret none => .exc "TypeError"
  | .ret (some df) =>
    match generate_summary_openai num_tokens_from_string env.llm
        (preprocess_reviews (reviews_column df)) (total_rating df)
        (average_rating (ratings_column df)) with
    | .exc e => .exc e
    | .ret _summary =>
      match (update_review_summary env.store).result with
      | .exc e => .exc e
      | .ret _ => .ret ()

/-- The per-id loop of `main` (src/main.py:25-58).  Each iteration body is
wrapped in `try/except Exception as e: print(...)`, which catches every
exception the body can raise, logs it, and falls through to the next id.  The
loop records, per id, whether its iteration succeeded. -/
def main_loop {ι : Type} (num_tokens_from_string : String → ℕ)
    (envOf : ι → IdEnv) : List ι → List (ι × Bool)
  | [] => []
  | i :: rest =>
    (i, (pipeline_step num_tokens_from_string (envOf i)).isRet) ::
      main_loop num_tokens_from_string envOf rest

/-- `main` (src/main.py:17-58): list the distinct ids, then run the per-id
loop.  (`fetch_unique_values_from_db` sits outside the `try`, but by C8 it
never raises.) -/
def main {ι : Type} (num_tokens_from_string : String → ℕ)
    (idsOracle : DbOracle (List ι)) (envOf : ι → IdEnv) :
    PyResult (List (ι × Bool)) :=
  match fetch_unique_values_from_db idsOracle with
  | .exc e => .exc e
  | .ret unique_ids => .ret (main_loop num_tokens_from_string envOf unique_ids)

/-- C9: the driver isolates per-id failures.  Whatever the external world does
(any tokenizer, any per-id environment — including failing fetches, failing
generations, failing writes), every id of the input sequence is processed, in
order; the loop distributes over concatenation, so an exception inside one
id's iteration never affects the ids after it; and an id with zero matching
rows merely raises `TypeError` inside its own iteration, which the `except`
catches. -/
theorem C9_driver_isolates_failures {ι : Type}
    (num_tokens_from_string : String → ℕ) (envOf : ι → IdEnv)
    (ids ids' : List ι) :
    (main_loop num_tokens_from_string envOf ids).map Prod.fst = ids ∧
      main_loop num_tokens_from_string envOf (ids ++ ids') =
        main_loop num_tokens_from_string envOf ids ++
          main_loop num_tokens_from_string envOf ids' ∧
      (∀ i : ι, (envOf i).fetch = ⟨.ok, .ok, .ok, []⟩ →
        pipeline_step num_tokens_from_string (envOf i) = .exc "TypeError") := by
  refine ⟨?_, ?_, ?_⟩
  · induction ids with
    | nil => rfl
    | cons i rest ih => simp [main_loop, ih]
  · induction ids with
    | nil => rfl
    | cons i rest ih => simp [main_loop, ih]
  · intro i h
    unfold pipeline_step
    rw [h]
    rfl

/-- Witness for C9: a batch of two ids whose record sets are both empty — the
first id's `TypeError` is caught and both ids are processed. -/
theorem C9_driver_witness :
    (main_loop char_count_tokenizer
        (fun _ : ℕ => ⟨⟨.ok, .ok, .ok, []⟩, fun _ => .ret "Summary",
          ⟨.ok, .ok, .ok, .ok⟩⟩) [1, 2]).map Prod.fst = [1, 2] ∧
      pipeline_step char_count_tokenizer
        ⟨⟨.ok, .ok, .ok, []⟩, fun _ => .ret "Summary", ⟨.ok, .ok, .ok, .ok⟩⟩ =
        .exc "TypeError" := by
  have h := C9_driver_isolates_failures char_count_tokenizer
    (fun _ : ℕ => ⟨⟨.ok, .ok, .ok, []⟩, fun _ => .ret "Summary",
      ⟨.ok, .ok, .ok, .ok⟩⟩) [1, 2] []
  exact ⟨h.1, h.2.2 1 rfl⟩

end PyReview
